import Mathlib

/-!
A shallow embedding of the simulation core of the Echo arcade game
(`src/echo.py`, `src/player.py`, `src/item.py`, `src/powerup.py`,
`src/game.py`).  Python floats are modelled as rationals (`ℚ`); the one
place the code takes a square root (`math.sqrt` inside the collision
tests) is modelled with `Real.sqrt` over the rational operands, together
with a decidability instance so the comparison stays executable.
Randomness (spawn positions, weighted kind choice) and the per-tick key
input are supplied as explicit oracle parameters.  Rendering, audio and
the event loop are outside the embedding, as in the code they only read
simulation state.
-/

namespace EchoGame

/-- The `ECHO_COLORS` from `src/echo.py`: the echo color palette. -/
def ECHO_COLORS : List (Nat × Nat × Nat) :=
  [(255, 80, 80), (255, 160, 50), (255, 255, 80), (80, 255, 80),
   (180, 80, 255), (255, 80, 200), (80, 255, 200), (200, 200, 255)]

/-- The `Echo` class state (`src/echo.py`). -/
structure Echo where
  path : List (ℚ × ℚ)
  frame_index : Nat
  color : Nat × Nat × Nat
  trail : List (ℚ × ℚ)
  finished : Bool
deriving DecidableEq

/-- The `Echo.RADIUS` class constant. -/
def Echo.RADIUS : ℚ := 12

/-- The `Echo.TRAIL_LENGTH` class constant. -/
def Echo.TRAIL_LENGTH : Nat := 15

/-- The `Echo.__init__(path, color_index)`: stores a copy of the path, cursor 0,
color `ECHO_COLORS[color_index % len(ECHO_COLORS)]`, empty trail, not
finished. -/
def Echo.init (path : List (ℚ × ℚ)) (color_index : Nat) : Echo :=
  { path := path
    frame_index := 0
    color := ECHO_COLORS.getD (color_index % ECHO_COLORS.length) (0, 0, 0)
    trail := []
    finished := false }

/-- The `Echo.x` property: `path[frame_index]` while the cursor is in
bounds, else `path[-1]` (or 0 for an empty path). -/
def Echo.x (e : Echo) : ℚ :=
  if h : e.frame_index < e.path.length then (e.path.get ⟨e.frame_index, h⟩).1
  else ((e.path.getLast?).getD (0, 0)).1

/-- The `Echo.y` property, same shape as `Echo.x`. -/
def Echo.y (e : Echo) : ℚ :=
  if h : e.frame_index < e.path.length then (e.path.get ⟨e.frame_index, h⟩).2
  else ((e.path.getLast?).getD (0, 0)).2

/-- The `Echo.update()`: if the cursor is in bounds, append the current
position to the bounded trail (FIFO at `TRAIL_LENGTH`) and advance the
cursor; otherwise set `finished`. -/
def Echo.update (e : Echo) : Echo :=
  if h : e.frame_index < e.path.length then
    let pos := e.path.get ⟨e.frame_index, h⟩
    let trail := e.trail ++ [pos]
    let trail := if trail.length > Echo.TRAIL_LENGTH then trail.tail else trail
    { e with trail := trail, frame_index := e.frame_index + 1 }
  else { e with finished := true }

/-- After `k` updates of a fresh echo the stored path is unchanged, the
cursor sits at `min k (path.length)`, and the finished flag is set exactly
when `k` has passed the path length. -/
lemma echo_iterate_spec (path : List (ℚ × ℚ)) (ci k : Nat) :
    (Echo.update^[k] (Echo.init path ci)).path = path ∧
    (Echo.update^[k] (Echo.init path ci)).frame_index = min k path.length ∧
    (Echo.update^[k] (Echo.init path ci)).finished = decide (path.length < k) := by
  induction k with
  | zero => simp [Echo.init]
  | succ k ih =>
    obtain ⟨hpath, hidx, hfin⟩ := ih
    rw [Function.iterate_succ_apply']
    set e := Echo.update^[k] (Echo.init path ci) with he
    by_cases hk : k < path.length
    · have hlt0 : e.frame_index < path.length := by
        rw [hidx]
        exact lt_of_le_of_lt (min_le_left _ _) hk
      have hlt : e.frame_index < e.path.length := by rw [hpath]; exact hlt0
      have h1 : ¬ path.length < k := Nat.not_lt.mpr (Nat.le_of_lt hk)
      have h2 : ¬ path.length < k + 1 := Nat.not_lt.mpr hk
      refine ⟨?_, ?_, ?_⟩
      · simp [Echo.update, hpath, hlt, hlt0]
      · simp only [Echo.update, hpath, hlt, hlt0, dif_pos]
        rw [hidx, Nat.min_eq_left (Nat.le_of_lt hk), Nat.min_eq_left hk]
      · simp only [Echo.update, hpath, hlt, hlt0, dif_pos]
        rw [hfin]
        simp [h1, h2]
    · have hge : path.length ≤ k := Nat.not_lt.mp hk
      have hnlt0 : ¬ e.frame_index < path.length := by
        rw [hidx, Nat.min_eq_right hge]
        exact lt_irrefl _
      have hnlt : ¬ e.frame_index < e.path.length := by rw [hpath]; exact hnlt0
      refine ⟨?_, ?_, ?_⟩
      · simp [Echo.update, hpath, hnlt, hnlt0]
      · simp only [Echo.update, hpath, hnlt, hnlt0, dif_neg, not_false_iff]
        rw [hidx, Nat.min_eq_right hge, Nat.min_eq_right (Nat.le_succ_of_le hge)]
      · simp only [Echo.update, hpath, hnlt, hnlt0, dif_neg, not_false_iff]
        simp [Nat.lt_succ_of_le hge]

/-- C1 counterexample: the claim says `finished` becomes true exactly when
the number of `update` calls first reaches `len(path)`.  For the one-point
path, after exactly 1 update (`k = len(path)`) the code still reports
`finished = false`: the flag is only set by the following update. -/
theorem c1_finished_counterexample :
    [((1 : ℚ), (2 : ℚ))].length = 1 ∧
      (Echo.update^[1] (Echo.init [((1 : ℚ), (2 : ℚ))] 0)).finished = false := by
  constructor
  · rfl
  · decide

/-- C1 (amended): for a non-empty path, after `k` updates the reported
position is `path[k]` for `k < len(path)` and `path[len(path)-1]` for
`k ≥ len(path)`; `finished` becomes true exactly when `k` first reaches
`len(path) + 1` (one update after the cursor reaches the end). -/
theorem c1_echo_replay (path : List (ℚ × ℚ)) (ci k : Nat) (hne : path ≠ []) :
    (∀ hk : k < path.length,
        (Echo.update^[k] (Echo.init path ci)).x = (path.get ⟨k, hk⟩).1 ∧
        (Echo.update^[k] (Echo.init path ci)).y = (path.get ⟨k, hk⟩).2) ∧
    (path.length ≤ k →
        (Echo.update^[k] (Echo.init path ci)).x = (path.getLast hne).1 ∧
        (Echo.update^[k] (Echo.init path ci)).y = (path.getLast hne).2) ∧
    ((Echo.update^[k] (Echo.init path ci)).finished = true ↔ path.length + 1 ≤ k) := by
  obtain ⟨hp, hi, hf⟩ := echo_iterate_spec path ci k
  generalize hE : Echo.update^[k] (Echo.init path ci) = e at hp hi hf ⊢
  obtain ⟨p, fi, col, tr, fin⟩ := e
  simp only at hp hi hf
  subst hp
  subst hi
  subst hf
  refine ⟨?_, ?_, ?_⟩
  · intro hk
    have hmin : min k p.length = k := Nat.min_eq_left (Nat.le_of_lt hk)
    constructor
    · simp [Echo.x, hmin, hk]
    · simp [Echo.y, hmin, hk]
  · intro hge
    have hmin : min k p.length = p.length := Nat.min_eq_right hge
    have hnlt : ¬ p.length < p.length := lt_irrefl _
    constructor
    · simp [Echo.x, hmin, hnlt, List.getLast?_eq_getLast_of_ne_nil hne]
    · simp [Echo.y, hmin, hnlt, List.getLast?_eq_getLast_of_ne_nil hne]
  · simp only [decide_eq_true_eq]
    exact ⟨Nat.succ_le_of_lt, Nat.lt_of_succ_le⟩

/-- C1 witness: concrete two-point path, one update. -/
theorem c1_echo_replay_witness :
    ([((1 : ℚ), (2 : ℚ)), ((3 : ℚ), (4 : ℚ))] ≠ ([] : List (ℚ × ℚ))) ∧
      (Echo.update^[1] (Echo.init [((1 : ℚ), (2 : ℚ)), ((3 : ℚ), (4 : ℚ))] 0)).x = 3 ∧
      (Echo.update^[1] (Echo.init [((1 : ℚ), (2 : ℚ)), ((3 : ℚ), (4 : ℚ))] 0)).y = 4 := by
  refine ⟨by decide, ?_⟩
  have h := (c1_echo_replay [((1 : ℚ), (2 : ℚ)), ((3 : ℚ), (4 : ℚ))] 0 1
    (by decide)).1 (by decide)
  simpa using h

/-- C10: the cursor of an echo never exceeds the snapshot length, and once
it equals the length it never changes again. -/
theorem c10_cursor_invariant (path : List (ℚ × ℚ)) (ci k : Nat) :
    (Echo.update^[k] (Echo.init path ci)).frame_index ≤ path.length ∧
    ((Echo.update^[k] (Echo.init path ci)).frame_index = path.length →
      (Echo.update^[k + 1] (Echo.init path ci)).frame_index = path.length) := by
  obtain ⟨-, hi, -⟩ := echo_iterate_spec path ci k
  obtain ⟨-, hi', -⟩ := echo_iterate_spec path ci (k + 1)
  constructor
  · rw [hi]; exact min_le_right _ _
  · intro h
    rw [hi']
    have hle : path.length ≤ k := by
      by_contra hlt
      push_neg at hlt
      rw [hi, Nat.min_eq_left (Nat.le_of_lt hlt)] at h
      omega
    rw [Nat.min_eq_right (Nat.le_succ_of_le hle)]

/-- C10 witness: one-point path, one update saturates the cursor. -/
theorem c10_cursor_invariant_witness :
    (Echo.update^[1] (Echo.init [((0 : ℚ), (0 : ℚ))] 0)).frame_index = 1 ∧
      (Echo.update^[2] (Echo.init [((0 : ℚ), (0 : ℚ))] 0)).frame_index = 1 := by
  refine ⟨by decide, ?_⟩
  have h := (c10_cursor_invariant [((0 : ℚ), (0 : ℚ))] 0 1).2 (by decide)
  simpa using h

/-- The `Player` class state (`src/player.py`).  `RADIUS` is a field
because `Game._update` mutates it per instance (shrink effect). -/
structure Player where
  x : ℚ
  y : ℚ
  RADIUS : ℚ
  path_history : List (ℚ × ℚ)
  trail : List (ℚ × ℚ)
deriving DecidableEq

/-- The `Player.SPEED` class constant. -/
def Player.SPEED : ℚ := 4

/-- The `Player.TRAIL_LENGTH` class constant. -/
def Player.TRAIL_LENGTH : Nat := 20

/-- The `Player.__init__(x, y)` with the class value of `RADIUS`. -/
def Player.init (x y : ℚ) : Player :=
  { x := x, y := y, RADIUS := 12, path_history := [], trail := [] }

/-- The displacement applied to each axis in `Player.move` before the
clamp: directions scaled by the literal `0.707` when both are nonzero,
then multiplied by `SPEED`. -/
def Player.moveDelta (dx dy : ℚ) : ℚ × ℚ :=
  if dx ≠ 0 ∧ dy ≠ 0 then
    (dx * (707 / 1000) * Player.SPEED, dy * (707 / 1000) * Player.SPEED)
  else (dx * Player.SPEED, dy * Player.SPEED)

/-- The `Player.move(dx, dy, screen_width, screen_height)`: diagonal
normalization by `0.707`, displacement by `SPEED`, per-axis clamp to
`[RADIUS, dimension - RADIUS]`, then append the accepted position to
`path_history` and to the FIFO trail. -/
def Player.move (p : Player) (dx dy screen_width screen_height : ℚ) : Player :=
  let d := Player.moveDelta dx dy
  let x := p.x + d.1
  let y := p.y + d.2
  let x := max p.RADIUS (min (screen_width - p.RADIUS) x)
  let y := max p.RADIUS (min (screen_height - p.RADIUS) y)
  let pos := (x, y)
  let trail := p.trail ++ [pos]
  let trail := if trail.length > Player.TRAIL_LENGTH then trail.tail else trail
  { p with x := x, y := y, path_history := p.path_history ++ [pos], trail := trail }

/-- The `Player.reset(x, y)`: move to the given position and clear the path
history and trail. -/
def Player.reset (p : Player) (x y : ℚ) : Player :=
  { p with x := x, y := y, path_history := [], trail := [] }

/-- C4 counterexample: the claim says each diagonal component is scaled by
exactly `1/√2`.  The code multiplies by the literal `0.707`, so for the
input `(1, 1)` the pre-clamp x-displacement is `2.828`, which is not
`1 * speed / √2 = 4/√2`. -/
theorem c4_diagonal_counterexample :
    (((Player.moveDelta 1 1).1 : ℚ) : ℝ) ≠ (1 : ℝ) * 4 / Real.sqrt 2 := by
  have hval : (Player.moveDelta 1 1).1 = 707 / 250 := by
    norm_num [Player.moveDelta, Player.SPEED]
  rw [hval]
  intro h
  have hsq : (((707 / 250 : ℚ) : ℝ)) ^ 2 = ((1 : ℝ) * 4 / Real.sqrt 2) ^ 2 := by
    rw [h]
  have h2 : Real.sqrt 2 ^ 2 = 2 := Real.sq_sqrt (by norm_num)
  rw [div_pow, one_mul, h2] at hsq
  push_cast at hsq
  norm_num at hsq

/-- C4 (amended): for both direction components nonzero, each component is
scaled by the literal `0.707` (an approximation of `1/√2`, not the exact
value) before the speed multiplier, so the pre-clamp position on each axis
is `old + direction * 0.707 * speed`. -/
theorem c4_diagonal_scaling (p : Player) (dx dy w h : ℚ)
    (hdx : dx ≠ 0) (hdy : dy ≠ 0) :
    (p.move dx dy w h).x =
      max p.RADIUS (min (w - p.RADIUS) (p.x + dx * (707 / 1000) * Player.SPEED)) ∧
    (p.move dx dy w h).y =
      max p.RADIUS (min (h - p.RADIUS) (p.y + dy * (707 / 1000) * Player.SPEED)) := by
  constructor <;> simp [Player.move, Player.moveDelta, hdx, hdy]

/-- C4 witness: diagonal move from the field center. -/
theorem c4_diagonal_scaling_witness :
    ((1 : ℚ) ≠ 0) ∧ ((1 : ℚ) ≠ 0) ∧
      ((Player.init 400 300).move 1 1 800 600).x = 400 + 707 / 250 := by
  refine ⟨by decide, by decide, ?_⟩
  have h := (c4_diagonal_scaling (Player.init 400 300) 1 1 800 600
    (by decide) (by decide)).1
  rw [h]
  norm_num [Player.init, Player.SPEED]

/-- C7: after any `move`, the position is clamped inside
`[RADIUS, dimension - RADIUS]` on both axes, provided the field admits the
radius on that axis. -/
theorem c7_position_clamped (p : Player) (dx dy w h : ℚ)
    (hw : p.RADIUS ≤ w - p.RADIUS) (hh : p.RADIUS ≤ h - p.RADIUS) :
    p.RADIUS ≤ (p.move dx dy w h).x ∧ (p.move dx dy w h).x ≤ w - p.RADIUS ∧
    p.RADIUS ≤ (p.move dx dy w h).y ∧ (p.move dx dy w h).y ≤ h - p.RADIUS := by
  refine ⟨?_, ?_, ?_, ?_⟩ <;> simp only [Player.move]
  · exact le_max_left _ _
  · exact max_le hw (min_le_left _ _)
  · exact le_max_left _ _
  · exact max_le hh (min_le_left _ _)

/-- C7 witness: an extreme move from near the corner stays in bounds. -/
theorem c7_position_clamped_witness :
    ((12 : ℚ) ≤ 800 - 12) ∧ ((12 : ℚ) ≤ 600 - 12) ∧
      ((12 : ℚ) ≤ ((Player.init 13 13).move (-1) (-1) 800 600).x ∧
        ((Player.init 13 13).move (-1) (-1) 800 600).x ≤ 800 - 12 ∧
        (12 : ℚ) ≤ ((Player.init 13 13).move (-1) (-1) 800 600).y ∧
        ((Player.init 13 13).move (-1) (-1) 800 600).y ≤ 600 - 12) :=
  ⟨by norm_num, by norm_num,
    c7_position_clamped (Player.init 13 13) (-1) (-1) 800 600
      (by norm_num [Player.init]) (by norm_num [Player.init])⟩

/-- The collision comparison shared by `Item.collides_with`,
`Powerup.collides_with` and the echo pass in `Game._update`:
`math.sqrt(dx*dx + dy*dy) < r` over rational operands. -/
def distLt (dx dy r : ℚ) : Prop :=
  Real.sqrt (((dx * dx + dy * dy : ℚ) : ℝ)) < ((r : ℚ) : ℝ)

/-- The square-root comparison is equivalent to a rational comparison of
squares, which keeps the embedded collision tests executable. -/
lemma distLt_iff (dx dy r : ℚ) :
    distLt dx dy r ↔ (0 < r ∧ dx * dx + dy * dy < r * r) := by
  unfold distLt
  constructor
  · intro h
    have h0 : (0 : ℝ) ≤ Real.sqrt (((dx * dx + dy * dy : ℚ) : ℝ)) :=
      Real.sqrt_nonneg _
    have hr' : (0 : ℝ) < ((r : ℚ) : ℝ) := lt_of_le_of_lt h0 h
    have hr : 0 < r := by exact_mod_cast hr'
    refine ⟨hr, ?_⟩
    have hlt := (Real.sqrt_lt' hr').mp h
    have hsq : ((dx * dx + dy * dy : ℚ) : ℝ) < ((r * r : ℚ) : ℝ) := by
      calc ((dx * dx + dy * dy : ℚ) : ℝ) < ((r : ℚ) : ℝ) ^ 2 := hlt
        _ = ((r * r : ℚ) : ℝ) := by push_cast; ring
    exact_mod_cast hsq
  · rintro ⟨hr, hlt⟩
    have hr' : (0 : ℝ) < ((r : ℚ) : ℝ) := by exact_mod_cast hr
    rw [Real.sqrt_lt' hr']
    have hc : ((dx * dx + dy * dy : ℚ) : ℝ) < ((r * r : ℚ) : ℝ) := by exact_mod_cast hlt
    calc ((dx * dx + dy * dy : ℚ) : ℝ) < ((r * r : ℚ) : ℝ) := hc
      _ = ((r : ℚ) : ℝ) ^ 2 := by push_cast; ring

instance distLt.instDecidable (dx dy r : ℚ) : Decidable (distLt dx dy r) :=
  decidable_of_iff (0 < r ∧ dx * dx + dy * dy < r * r) (distLt_iff dx dy r).symm

/-- Modelled from the spec's words for C8: the Euclidean distance between
two centers. -/
noncomputable def euclideanDistance (x₁ y₁ x₂ y₂ : ℚ) : ℝ :=
  Real.sqrt ((((x₁ - x₂ : ℚ) : ℝ)) ^ 2 + (((y₁ - y₂ : ℚ) : ℝ)) ^ 2)

/-- The `Item` class state (`src/item.py`).  The random respawn position
is supplied as an oracle parameter where it is drawn. -/
structure Item where
  screen_width : ℚ
  screen_height : ℚ
  x : ℚ
  y : ℚ
  pulse_time : ℚ
deriving DecidableEq

/-- The `Item.RADIUS` class constant. -/
def Item.RADIUS : ℚ := 8

/-- The `Item.MARGIN` class constant. -/
def Item.MARGIN : ℚ := 40

/-- The `Item.respawn()`: move to the freshly drawn random position `pos` and
reset the pulse accumulator. -/
def Item.respawn (it : Item) (pos : ℚ × ℚ) : Item :=
  { it with x := pos.1, y := pos.2, pulse_time := 0 }

/-- The `Item.__init__(screen_width, screen_height)`: fields are zeroed and
then `respawn()` runs with the random draw `pos`. -/
def Item.init (screen_width screen_height : ℚ) (pos : ℚ × ℚ) : Item :=
  Item.respawn
    { screen_width := screen_width, screen_height := screen_height,
      x := 0, y := 0, pulse_time := 0 } pos

/-- The `Item.collides_with(px, py, pradius)`: strict comparison of the
center distance against the summed radii. -/
def Item.collides_with (it : Item) (px py pradius : ℚ) : Prop :=
  distLt (it.x - px) (it.y - py) (Item.RADIUS + pradius)

instance Item.collides_with.instDecidable (it : Item) (px py pradius : ℚ) :
    Decidable (it.collides_with px py pradius) := by
  unfold Item.collides_with
  infer_instance

/-- The `Item.update(dt)`: advance the pulse animation accumulator. -/
def Item.update (it : Item) (dt : ℚ) : Item :=
  { it with pulse_time := it.pulse_time + dt }

/-- C8: `Item.collides_with` holds iff the Euclidean distance between the
centers is strictly below the summed radii; exact tangency therefore does
not collide.  (The embedded check is a pure predicate on the state: it
returns a proposition and leaves the item unchanged.) -/
theorem c8_collides_strict (it : Item) (px py pradius : ℚ) :
    (it.collides_with px py pradius ↔
      euclideanDistance it.x it.y px py < ((Item.RADIUS + pradius : ℚ) : ℝ)) ∧
    (euclideanDistance it.x it.y px py = ((Item.RADIUS + pradius : ℚ) : ℝ) →
      ¬ it.collides_with px py pradius) := by
  have harg : ((it.x - px) * (it.x - px) + (it.y - py) * (it.y - py) : ℚ) =
      ((it.x - px) ^ 2 + (it.y - py) ^ 2 : ℚ) := by ring
  have hiff : it.collides_with px py pradius ↔
      euclideanDistance it.x it.y px py < ((Item.RADIUS + pradius : ℚ) : ℝ) := by
    unfold Item.collides_with distLt euclideanDistance
    rw [harg]
    push_cast
    exact Iff.rfl
  refine ⟨hiff, ?_⟩
  intro htan
  rw [hiff, htan]
  exact lt_irrefl _

/-- C8 witness: centers at distance exactly `10 = 8 + 2` are tangent and
do not collide. -/
theorem c8_collides_strict_witness :
    euclideanDistance 0 0 6 8 = (((Item.RADIUS + 2 : ℚ)) : ℝ) ∧
      ¬ (Item.init 800 600 (0, 0)).collides_with 6 8 2 := by
  have hd : euclideanDistance 0 0 6 8 = (((Item.RADIUS + 2 : ℚ)) : ℝ) := by
    unfold euclideanDistance Item.RADIUS
    rw [show ((((0 - 6 : ℚ)) : ℝ)) ^ 2 + ((((0 - 8 : ℚ)) : ℝ)) ^ 2 = 10 ^ 2 by
      push_cast; norm_num]
    rw [Real.sqrt_sq (by norm_num : (0 : ℝ) ≤ 10)]
    push_cast
    norm_num
  refine ⟨hd, ?_⟩
  exact (c8_collides_strict (Item.init 800 600 (0, 0)) 6 8 2).2 hd

/-- The `PowerupType` enum (`src/powerup.py`). -/
inductive PowerupType where
  | GHOST_EATER
  | TIME_FREEZE
  | SHRINK
deriving DecidableEq

/-- One entry of the `POWERUP_CONFIG` table. -/
structure PowerupConfig where
  color : Nat × Nat × Nat
  glow_color : Nat × Nat × Nat × Nat
  icon : String
  duration : ℚ
  spawn_weight : Nat
  label : String
deriving DecidableEq

/-- The `POWERUP_CONFIG` table, keyed by powerup type. -/
def POWERUP_CONFIG : PowerupType → PowerupConfig
  | .GHOST_EATER =>
      { color := (255, 50, 50), glow_color := (255, 50, 50, 80),
        icon := "skull", duration := 5, spawn_weight := 1,
        label := "GHOST EATER" }
  | .TIME_FREEZE =>
      { color := (80, 180, 255), glow_color := (80, 180, 255, 80),
        icon := "snowflake", duration := 5, spawn_weight := 3,
        label := "TIME FREEZE" }
  | .SHRINK =>
      { color := (180, 80, 255), glow_color := (180, 80, 255, 80),
        icon := "diamond", duration := 6, spawn_weight := 3,
        label := "SHRINK" }

/-- The `Powerup` class state (`src/powerup.py`). -/
structure Powerup where
  screen_width : ℚ
  screen_height : ℚ
  x : ℚ
  y : ℚ
  active : Bool
  powerup_type : PowerupType
  pulse_time : ℚ
  spawn_timer : ℚ
  spawn_interval : ℚ
deriving DecidableEq

/-- The `Powerup.RADIUS` class constant. -/
def Powerup.RADIUS : ℚ := 12

/-- The `Powerup.MARGIN` class constant. -/
def Powerup.MARGIN : ℚ := 50

/-- The `Powerup.__init__(screen_width, screen_height)`: inactive, default
type `TIME_FREEZE`, zeroed timers, spawn interval 8 seconds. -/
def Powerup.init (screen_width screen_height : ℚ) : Powerup :=
  { screen_width := screen_width, screen_height := screen_height,
    x := 0, y := 0, active := false, powerup_type := PowerupType.TIME_FREEZE,
    pulse_time := 0, spawn_timer := 0, spawn_interval := 8 }

/-- The `Powerup._spawn()`: reset the spawn timer, activate, pick the
weighted-random kind and random position (both supplied by the caller as
the draws `kind` and `pos`). -/
def Powerup.spawn (p : Powerup) (kind : PowerupType) (pos : ℚ × ℚ) : Powerup :=
  { p with spawn_timer := 0, active := true, pulse_time := 0,
           powerup_type := kind, x := pos.1, y := pos.2 }

/-- The `Powerup.update(dt)`: while active only the pulse accumulates; while
inactive the spawn timer accumulates and triggers `_spawn` at the
interval. -/
def Powerup.update (p : Powerup) (dt : ℚ) (kind : PowerupType)
    (pos : ℚ × ℚ) : Powerup :=
  if p.active = true then { p with pulse_time := p.pulse_time + dt }
  else
    let p := { p with spawn_timer := p.spawn_timer + dt }
    if p.spawn_timer ≥ p.spawn_interval then p.spawn kind pos else p

/-- The `Powerup.collect()`: `None` when inactive; otherwise deactivate,
reset the spawn timer and return the type.  The mutated object is the
second component. -/
def Powerup.collect (p : Powerup) : Option PowerupType × Powerup :=
  if p.active = false then (none, p)
  else (some p.powerup_type, { p with active := false, spawn_timer := 0 })

/-- The `Powerup.collides_with(px, py, pradius)`: always false while
inactive, else the same strict distance comparison as the item. -/
def Powerup.collides_with (p : Powerup) (px py pradius : ℚ) : Prop :=
  p.active = true ∧ distLt (p.x - px) (p.y - py) (Powerup.RADIUS + pradius)

instance Powerup.collides_with.instDecidable (p : Powerup) (px py pradius : ℚ) :
    Decidable (p.collides_with px py pradius) := by
  unfold Powerup.collides_with
  infer_instance

/-- C5: collecting an inactive powerup is a pure no-op returning `none`;
collecting an active one deactivates it, zeroes the spawn timer and
returns its kind, and a second collect before the next spawn returns
`none`.  The function is total, so no input can raise. -/
theorem c5_collect_idempotent (p : Powerup) :
    (p.active = false → p.collect = (none, p)) ∧
    (p.active = true →
      p.collect = (some p.powerup_type,
        { p with active := false, spawn_timer := 0 }) ∧
      p.collect.2.active = false ∧
      p.collect.2.spawn_timer = 0 ∧
      p.collect.2.collect.1 = none) := by
  constructor
  · intro h
    simp [Powerup.collect, h]
  · intro h
    simp [Powerup.collect, h]

/-- C5 witness: a concrete active powerup. -/
theorem c5_collect_idempotent_witness :
    ((Powerup.spawn (Powerup.init 800 600) PowerupType.GHOST_EATER
        (100, 100)).active = true) ∧
      ((Powerup.spawn (Powerup.init 800 600) PowerupType.GHOST_EATER
          (100, 100)).collect.1 = some PowerupType.GHOST_EATER ∧
        (Powerup.spawn (Powerup.init 800 600) PowerupType.GHOST_EATER
          (100, 100)).collect.2.collect.1 = none) := by
  have h := (c5_collect_idempotent (Powerup.spawn (Powerup.init 800 600)
    PowerupType.GHOST_EATER (100, 100))).2 (by decide)
  exact ⟨by decide, by rw [h.1]; rfl, h.2.2.2⟩

/-- The `ActiveEffect` class state (`src/powerup.py`). -/
structure ActiveEffect where
  powerup_type : PowerupType
  duration : ℚ
  remaining : ℚ
  label : String
  color : Nat × Nat × Nat
deriving DecidableEq

/-- The `ActiveEffect.__init__(powerup_type)`: duration and remaining time
both start at the configured duration. -/
def ActiveEffect.init (t : PowerupType) : ActiveEffect :=
  { powerup_type := t, duration := (POWERUP_CONFIG t).duration,
    remaining := (POWERUP_CONFIG t).duration,
    label := (POWERUP_CONFIG t).label, color := (POWERUP_CONFIG t).color }

/-- The `ActiveEffect.update(dt)`: subtract the elapsed time and report
whether the effect is still live.  The mutated object is the first
component. -/
def ActiveEffect.update (e : ActiveEffect) (dt : ℚ) : ActiveEffect × Bool :=
  let e := { e with remaining := e.remaining - dt }
  (e, decide (e.remaining > 0))

/-- The `ActiveEffect.progress` property. -/
def ActiveEffect.progress (e : ActiveEffect) : ℚ :=
  max 0 (e.remaining / e.duration)

/-- The effect filter step of `Game._update`:
`[e for e in self.active_effects if e.update(dt)]`. -/
def updateEffects (effects : List ActiveEffect) (dt : ℚ) : List ActiveEffect :=
  (effects.map (fun e => e.update dt)).filterMap
    (fun r => if r.2 = true then some r.1 else none)

/-- C6: one tick subtracts exactly `dt` from every effect's remaining
time; the filter keeps exactly the effects whose new remaining time is
still positive (so an effect is dropped in the very tick it reaches zero
or below); `progress` starts at 1 and is non-increasing under a
non-negative `dt`. -/
theorem c6_effect_lifecycle (e : ActiveEffect) (dt : ℚ) (l : List ActiveEffect) :
    (e.update dt).1.remaining = e.remaining - dt ∧
    (e.update dt).2 = decide (0 < e.remaining - dt) ∧
    updateEffects l dt =
      (l.map (fun a => (a.update dt).1)).filter
        (fun a => decide (0 < a.remaining)) ∧
    (∀ t : PowerupType, (ActiveEffect.init t).progress = 1) ∧
    (0 ≤ dt → 0 < e.duration → (e.update dt).1.progress ≤ e.progress) := by
  refine ⟨rfl, by simp [ActiveEffect.update], ?_, ?_, ?_⟩
  · induction l with
    | nil => rfl
    | cons a rest ih =>
      simp only [updateEffects] at ih ⊢
      by_cases hpos : dt < a.remaining
      · simpa [ActiveEffect.update, hpos, List.filterMap_cons, List.filter_cons,
          List.filterMap_map, List.filter_map, sub_pos] using ih
      · simpa [ActiveEffect.update, hpos, List.filterMap_cons, List.filter_cons,
          List.filterMap_map, List.filter_map, sub_pos] using ih
  · intro t
    cases t <;> simp [ActiveEffect.init, ActiveEffect.progress, POWERUP_CONFIG]
  · intro hdt hdur
    unfold ActiveEffect.progress ActiveEffect.update
    simp only
    exact max_le_max (le_refl 0) ((div_le_div_iff_of_pos_right hdur).mpr (by linarith))

/-- C6 witness: a ghost-eater effect ticked by one second. -/
theorem c6_effect_lifecycle_witness :
    ((0 : ℚ) ≤ 1) ∧ ((0 : ℚ) < (ActiveEffect.init PowerupType.GHOST_EATER).duration) ∧
      ((ActiveEffect.init PowerupType.GHOST_EATER).update 1).1.remaining = 4 ∧
      ((ActiveEffect.init PowerupType.GHOST_EATER).update 1).1.progress ≤
        (ActiveEffect.init PowerupType.GHOST_EATER).progress := by
  have h := c6_effect_lifecycle (ActiveEffect.init PowerupType.GHOST_EATER) 1 []
  have hdur : (0 : ℚ) < (ActiveEffect.init PowerupType.GHOST_EATER).duration := by
    norm_num [ActiveEffect.init, POWERUP_CONFIG]
  refine ⟨by norm_num, hdur, ?_, h.2.2.2.2 (by norm_num) hdur⟩
  rw [h.1]
  norm_num [ActiveEffect.init, POWERUP_CONFIG]

/-- The `GameState` enum (`src/game.py`). -/
inductive GameState where
  | PLAYING
  | GAME_OVER
deriving DecidableEq

/-- Screen width (`WIDTH` in `src/game.py`). -/
def WIDTH : ℚ := 800

/-- Screen height (`HEIGHT` in `src/game.py`). -/
def HEIGHT : ℚ := 600

/-- The `FPS` in `src/game.py`. -/
def FPS : ℚ := 60

/-- The `ECHO_INTERVAL`: seconds between echo spawns. -/
def ECHO_INTERVAL : ℚ := 5

/-- The `COLLISION_GRACE`: seconds of grace after session start and, scaled by
`FPS`, the per-echo grace in ticks. -/
def COLLISION_GRACE : ℚ := 1

/-- The `NORMAL_RADIUS` in `src/game.py`. -/
def NORMAL_RADIUS : ℚ := 12

/-- The `SHRINK_RADIUS` in `src/game.py`. -/
def SHRINK_RADIUS : ℚ := 6

/-- The simulation fields of the `Game` class (`src/game.py`); the
pygame handles, fonts, sound manager and konami buffer are presentation
state and carry no simulation logic. -/
structure Game where
  high_score : ℕ
  disco_flash_timer : ℚ
  player : Player
  echoes : List Echo
  item : Item
  powerup : Powerup
  active_effects : List ActiveEffect
  score : ℕ
  echo_timer : ℚ
  echo_count : ℕ
  game_time : ℚ
  state : GameState
  ghosts_eaten : ℕ

/-- The `Game._has_effect(powerup_type)`. -/
def Game.has_effect (g : Game) (t : PowerupType) : Bool :=
  g.active_effects.any (fun e => decide (e.powerup_type = t))

/-- The `Game._game_over()`: switch to `GAME_OVER` and update the best score
(the sound trigger is external). -/
def Game.game_over (g : Game) : Game :=
  let g := { g with state := GameState.GAME_OVER }
  if g.score > g.high_score then { g with high_score := g.score } else g

/-- The `Game.reset()`: fresh player at the field center, empty echo list,
fresh item (its random position is the draw `itemPos`), fresh inactive
powerup, no effects, zeroed score/timers/counters, `PLAYING`.  The best
score field is not touched. -/
def Game.reset (g : Game) (itemPos : ℚ × ℚ) : Game :=
  { g with
    player := Player.init (WIDTH / 2) (HEIGHT / 2)
    echoes := []
    item := Item.init WIDTH HEIGHT itemPos
    powerup := Powerup.init WIDTH HEIGHT
    active_effects := []
    score := 0
    echo_timer := 0
    echo_count := 0
    game_time := 0
    state := GameState.PLAYING
    ghosts_eaten := 0 }

/-- The distance test of the echo-collision pass:
`sqrt((player.x - echo.x)² + (player.y - echo.y)²) <
 player.RADIUS + echo.RADIUS - 4`. -/
def collideEcho (g : Game) (e : Echo) : Prop :=
  distLt (g.player.x - e.x) (g.player.y - e.y)
    (g.player.RADIUS + Echo.RADIUS - 4)

instance collideEcho.instDecidable (g : Game) (e : Echo) :
    Decidable (collideEcho g e) := by
  unfold collideEcho
  infer_instance

/-- The loop body of the echo-collision pass of `Game._update`, iterating
over the snapshot copy `self.echoes[:]` taken at pass start.
`is_ghost_eater` is computed once before the loop.  A consumed echo is
removed from the live list and pays the eaten counter and the fixed +3
bonus; a fatal collision calls `_game_over` and returns, leaving the
remaining echoes unprocessed. -/
def Game.echoPassAux (is_ghost_eater : Bool) : Game → List Echo → Game
  | g, [] => g
  | g, e :: rest =>
    if (e.frame_index : ℚ) > FPS * COLLISION_GRACE then
      if collideEcho g e then
        if is_ghost_eater then
          Game.echoPassAux is_ghost_eater
            { g with echoes := g.echoes.erase e,
                     ghosts_eaten := g.ghosts_eaten + 1,
                     score := g.score + 3 } rest
        else Game.game_over g
      else Game.echoPassAux is_ghost_eater g rest
    else Game.echoPassAux is_ghost_eater g rest

/-- The whole echo-collision pass (step 10 of the tick): gated by the
global grace period since session start. -/
def Game.echoCollisionPass (g : Game) : Game :=
  if g.game_time > COLLISION_GRACE then
    Game.echoPassAux (g.has_effect PowerupType.GHOST_EATER) g g.echoes
  else g

/-- With the ghost-eater flag set, the pass never changes the phase. -/
lemma echoPassAux_true_state (l : List Echo) (g : Game) :
    (Game.echoPassAux true g l).state = g.state := by
  induction l generalizing g with
  | nil => rfl
  | cons e rest ih =>
    unfold Game.echoPassAux
    by_cases h1 : (e.frame_index : ℚ) > FPS * COLLISION_GRACE
    · by_cases h2 : collideEcho g e
      · simp only [h1, h2, if_true, if_pos]
        exact ih _
      · simp only [h1, h2, if_true, if_false, if_pos, if_neg, not_false_iff]
        exact ih g
    · simp only [h1, if_neg, not_false_iff]
      exact ih g

/-- The external inputs of one tick of `Game._update`: the elapsed time,
the combined key direction, and the random draws consumed if the item
respawns or the powerup spawns this tick. -/
structure Tick where
  dt : ℚ
  dx : ℚ
  dy : ℚ
  itemPos : ℚ × ℚ
  powerupPos : ℚ × ℚ
  powerupKind : PowerupType

/-- The `Game._update(dt)` (run only in the `PLAYING` phase): the fixed-order
tick pipeline of `src/game.py` — clock, flash timer, effect filter,
shrink radius, movement, echo spawn at the interval, echo advancement
unless time freeze, item/powerup update, item collection, powerup
collection, echo-collision pass. -/
def Game.update (g : Game) (tk : Tick) : Game :=
  let g := { g with game_time := g.game_time + tk.dt }
  let g := if g.disco_flash_timer > 0 then
      { g with disco_flash_timer := g.disco_flash_timer - tk.dt } else g
  let g := { g with active_effects := updateEffects g.active_effects tk.dt }
  let g := { g with player := { g.player with
    RADIUS := if g.has_effect PowerupType.SHRINK = true then SHRINK_RADIUS
              else NORMAL_RADIUS } }
  let g := { g with player := g.player.move tk.dx tk.dy WIDTH HEIGHT }
  let g := { g with echo_timer := g.echo_timer + tk.dt }
  let g := if g.echo_timer ≥ ECHO_INTERVAL then
      { g with echo_timer := 0,
               echoes := g.echoes ++ [Echo.init g.player.path_history g.echo_count],
               echo_count := g.echo_count + 1 }
    else g
  let g := if g.has_effect PowerupType.TIME_FREEZE = false then
      { g with echoes := g.echoes.map Echo.update } else g
  let g := { g with item := g.item.update tk.dt }
  let g := { g with powerup := g.powerup.update tk.dt tk.powerupKind tk.powerupPos }
  let g := if g.item.collides_with g.player.x g.player.y g.player.RADIUS then
      { g with score := g.score + 1, item := g.item.respawn tk.itemPos }
    else g
  let g := if g.powerup.collides_with g.player.x g.player.y g.player.RADIUS then
      let r := g.powerup.collect
      let g := { g with powerup := r.2 }
      match r.1 with
      | some t => { g with active_effects := g.active_effects ++ [ActiveEffect.init t] }
      | none => g
    else g
  g.echoCollisionPass

/-- C9: reset from any state puts the player at the field center with an
empty path, empties the echoes and the effects, restores the powerup to
inactive with zeroed timers, zeroes score, echo timer, echo count, eaten
counter and session clock, returns to `PLAYING`, and leaves the best
score untouched. -/
theorem c9_reset_state (g : Game) (itemPos : ℚ × ℚ) :
    (g.reset itemPos).player.x = 400 ∧
    (g.reset itemPos).player.y = 300 ∧
    (g.reset itemPos).player.path_history = [] ∧
    (g.reset itemPos).player.trail = [] ∧
    (g.reset itemPos).echoes = [] ∧
    (g.reset itemPos).active_effects = [] ∧
    (g.reset itemPos).powerup.active = false ∧
    (g.reset itemPos).powerup.spawn_timer = 0 ∧
    (g.reset itemPos).powerup.pulse_time = 0 ∧
    (g.reset itemPos).score = 0 ∧
    (g.reset itemPos).echo_timer = 0 ∧
    (g.reset itemPos).echo_count = 0 ∧
    (g.reset itemPos).ghosts_eaten = 0 ∧
    (g.reset itemPos).game_time = 0 ∧
    (g.reset itemPos).state = GameState.PLAYING ∧
    (g.reset itemPos).high_score = g.high_score := by
  refine ⟨?_, ?_, rfl, rfl, rfl, rfl, rfl, rfl, rfl, rfl, rfl, rfl, rfl, rfl,
    rfl, rfl⟩
  · show WIDTH / 2 = 400
    norm_num [WIDTH]
  · show HEIGHT / 2 = 300
    norm_num [HEIGHT]

/-- C2: in the echo-collision pass, a colliding past-grace echo at the
head of the list is consumed when ghost eater is active (removed from the
live list, eaten counter +1, score +3, pass continues and the phase stays
`PLAYING`), and is fatal otherwise (`_game_over` runs immediately, the
remaining echoes are not processed, the list and counters are
unchanged). -/
theorem c2_ghost_eater_collision (g : Game) (e : Echo) (rest : List Echo)
    (hTime : g.game_time > COLLISION_GRACE)
    (hEchoes : g.echoes = e :: rest)
    (hFrame : (e.frame_index : ℚ) > FPS * COLLISION_GRACE)
    (hColl : collideEcho g e) :
    (g.has_effect PowerupType.GHOST_EATER = true →
      g.echoCollisionPass =
        Game.echoPassAux true
          { g with echoes := rest,
                   ghosts_eaten := g.ghosts_eaten + 1,
                   score := g.score + 3 } rest ∧
      (g.state = GameState.PLAYING →
        g.echoCollisionPass.state = GameState.PLAYING)) ∧
    (g.has_effect PowerupType.GHOST_EATER = false →
      g.echoCollisionPass = Game.game_over g ∧
      g.echoCollisionPass.state = GameState.GAME_OVER ∧
      g.echoCollisionPass.echoes = g.echoes ∧
      g.echoCollisionPass.ghosts_eaten = g.ghosts_eaten ∧
      g.echoCollisionPass.score = g.score) := by
  have herase : g.echoes.erase e = rest := by
    rw [hEchoes, List.erase_cons_head]
  constructor
  · intro hge
    have hpass : g.echoCollisionPass =
        Game.echoPassAux true
          { g with echoes := rest,
                   ghosts_eaten := g.ghosts_eaten + 1,
                   score := g.score + 3 } rest := by
      unfold Game.echoCollisionPass
      rw [if_pos hTime, hge, hEchoes]
      simp only [Game.echoPassAux]
      rw [if_pos hFrame, if_pos hColl]
      simp only [if_true]
      rw [herase]
    refine ⟨hpass, ?_⟩
    intro hst
    rw [hpass, echoPassAux_true_state]
    exact hst
  · intro hge
    have hpass : g.echoCollisionPass = Game.game_over g := by
      unfold Game.echoCollisionPass
      rw [if_pos hTime, hge, hEchoes]
      simp only [Game.echoPassAux]
      rw [if_pos hFrame, if_pos hColl]
      simp
    have hstate : (Game.game_over g).state = GameState.GAME_OVER := by
      by_cases hs : g.score > g.high_score <;> simp [Game.game_over, hs]
    have hrest : (Game.game_over g).echoes = g.echoes ∧
        (Game.game_over g).ghosts_eaten = g.ghosts_eaten ∧
        (Game.game_over g).score = g.score := by
      by_cases hs : g.score > g.high_score <;> simp [Game.game_over, hs]
    exact ⟨hpass, hpass ▸ hstate, hpass ▸ hrest.1, hpass ▸ hrest.2.1,
      hpass ▸ hrest.2.2⟩

/-- C3: the three gates of the echo-collision pass.  If the session is
still inside the global grace period the pass changes nothing; if the
echo's own cursor has not passed `FPS * COLLISION_GRACE` ticks, or the
distance test fails, that echo is skipped with no state change; and the
distance test holds exactly when the Euclidean center distance is
strictly below `player_radius + echo_radius - 4`. -/
theorem c3_collision_gates (g : Game) (e : Echo) (rest : List Echo) (b : Bool) :
    (¬ g.game_time > COLLISION_GRACE → g.echoCollisionPass = g) ∧
    (¬ (e.frame_index : ℚ) > FPS * COLLISION_GRACE →
      Game.echoPassAux b g (e :: rest) = Game.echoPassAux b g rest) ∧
    (¬ collideEcho g e →
      Game.echoPassAux b g (e :: rest) = Game.echoPassAux b g rest) ∧
    (collideEcho g e ↔
      euclideanDistance g.player.x g.player.y e.x e.y <
        ((g.player.RADIUS + Echo.RADIUS - 4 : ℚ) : ℝ)) := by
  refine ⟨?_, ?_, ?_, ?_⟩
  · intro hTime
    unfold Game.echoCollisionPass
    rw [if_neg hTime]
  · intro hFrame
    simp only [Game.echoPassAux]
    rw [if_neg hFrame]
  · intro hColl
    simp only [Game.echoPassAux]
    by_cases hFrame : (e.frame_index : ℚ) > FPS * COLLISION_GRACE
    · rw [if_pos hFrame, if_neg hColl]
    · rw [if_neg hFrame]
  · unfold collideEcho distLt euclideanDistance
    have harg : ((g.player.x - e.x) * (g.player.x - e.x) +
        (g.player.y - e.y) * (g.player.y - e.y) : ℚ) =
        ((g.player.x - e.x) ^ 2 + (g.player.y - e.y) ^ 2 : ℚ) := by ring
    rw [harg]
    push_cast
    exact Iff.rfl

/-- A finished echo holding at `(100, 100)` whose cursor has passed the
per-echo grace. -/
def sampleEcho : Echo :=
  { path := [(100, 100)], frame_index := 61, color := (255, 80, 80),
    trail := [], finished := false }

/-- A player standing on the echo's current position. -/
def samplePlayer : Player :=
  { x := 100, y := 100, RADIUS := 12, path_history := [], trail := [] }

/-- A session past the global grace with one overlapping echo and a live
ghost-eater effect. -/
def sampleGameGE : Game :=
  { high_score := 0, disco_flash_timer := 0, player := samplePlayer,
    echoes := [sampleEcho], item := Item.init 800 600 (400, 400),
    powerup := Powerup.init 800 600,
    active_effects := [ActiveEffect.init PowerupType.GHOST_EATER],
    score := 0, echo_timer := 0, echo_count := 1, game_time := 2,
    state := GameState.PLAYING, ghosts_eaten := 0 }

/-- The same session with no active effects. -/
def sampleGameNoGE : Game := { sampleGameGE with active_effects := [] }

/-- The echo and the player overlap in the sample session. -/
lemma sampleEcho_collides : collideEcho sampleGameGE sampleEcho := by
  have hex : sampleEcho.x = 100 := by
    simp [Echo.x, sampleEcho]
  have hey : sampleEcho.y = 100 := by
    simp [Echo.y, sampleEcho]
  unfold collideEcho
  rw [distLt_iff]
  constructor
  · norm_num [sampleGameGE, samplePlayer, Echo.RADIUS]
  · rw [hex, hey]
    norm_num [sampleGameGE, samplePlayer, Echo.RADIUS]

/-- C2 witness: the overlapping past-grace echo is eaten when ghost eater
is active (phase stays `PLAYING`, counter 1, bonus 3, echo gone) and is
fatal without it. -/
theorem c2_ghost_eater_collision_witness :
    sampleGameGE.game_time > COLLISION_GRACE ∧
    sampleGameGE.has_effect PowerupType.GHOST_EATER = true ∧
    sampleGameGE.echoCollisionPass.state = GameState.PLAYING ∧
    sampleGameGE.echoCollisionPass.ghosts_eaten = 1 ∧
    sampleGameGE.echoCollisionPass.score = 3 ∧
    sampleGameGE.echoCollisionPass.echoes = [] ∧
    sampleGameNoGE.has_effect PowerupType.GHOST_EATER = false ∧
    sampleGameNoGE.echoCollisionPass.state = GameState.GAME_OVER := by
  have hTime : sampleGameGE.game_time > COLLISION_GRACE := by
    norm_num [sampleGameGE, COLLISION_GRACE]
  have hFrame : ((sampleEcho.frame_index : ℚ)) > FPS * COLLISION_GRACE := by
    norm_num [sampleEcho, FPS, COLLISION_GRACE]
  have hge : sampleGameGE.has_effect PowerupType.GHOST_EATER = true := by
    simp [Game.has_effect, sampleGameGE, ActiveEffect.init]
  have hnge : sampleGameNoGE.has_effect PowerupType.GHOST_EATER = false := rfl
  have h1 := (c2_ghost_eater_collision sampleGameGE sampleEcho [] hTime rfl
    hFrame sampleEcho_collides).1 hge
  have h2 := (c2_ghost_eater_collision sampleGameNoGE sampleEcho [] hTime rfl
    hFrame sampleEcho_collides).2 hnge
  have hpass := h1.1
  refine ⟨hTime, hge, h1.2 rfl, ?_, ?_, ?_, hnge, h2.2.1⟩
  · rw [hpass]; rfl
  · rw [hpass]; rfl
  · rw [hpass]; rfl

/-- The sample session before the global grace period has elapsed. -/
def sampleGameEarly : Game := { sampleGameGE with game_time := 1 }

/-- A just-spawned echo still inside its per-echo grace. -/
def sampleFreshEcho : Echo := Echo.init [(100, 100)] 1

/-- An echo far away from the player. -/
def sampleFarEcho : Echo :=
  { path := [(500, 500)], frame_index := 0, color := (255, 160, 50),
    trail := [], finished := false }

/-- C3 witness: each failing gate leaves the state untouched. -/
theorem c3_collision_gates_witness :
    (¬ sampleGameEarly.game_time > COLLISION_GRACE) ∧
    sampleGameEarly.echoCollisionPass = sampleGameEarly ∧
    (¬ ((sampleFreshEcho.frame_index : ℚ)) > FPS * COLLISION_GRACE) ∧
    Game.echoPassAux true sampleGameGE [sampleFreshEcho] =
      Game.echoPassAux true sampleGameGE [] ∧
    (¬ collideEcho sampleGameGE sampleFarEcho) ∧
    Game.echoPassAux true sampleGameGE [sampleFarEcho] =
      Game.echoPassAux true sampleGameGE [] := by
  have hT : ¬ sampleGameEarly.game_time > COLLISION_GRACE := by
    norm_num [sampleGameEarly, sampleGameGE, COLLISION_GRACE]
  have hF : ¬ ((sampleFreshEcho.frame_index : ℚ)) > FPS * COLLISION_GRACE := by
    norm_num [sampleFreshEcho, Echo.init, FPS, COLLISION_GRACE]
  have hC : ¬ collideEcho sampleGameGE sampleFarEcho := by
    have hex : sampleFarEcho.x = 500 := by
      simp [Echo.x, sampleFarEcho]
    have hey : sampleFarEcho.y = 500 := by
      simp [Echo.y, sampleFarEcho]
    unfold collideEcho
    rw [distLt_iff, hex, hey]
    rintro ⟨-, habs⟩
    norm_num [sampleGameGE, samplePlayer, Echo.RADIUS] at habs
  exact ⟨hT, (c3_collision_gates sampleGameEarly sampleFarEcho [] true).1 hT,
    hF, (c3_collision_gates sampleGameGE sampleFreshEcho [] true).2.1 hF,
    hC, (c3_collision_gates sampleGameGE sampleFarEcho [] true).2.2.1 hC⟩

end EchoGame
